import Mathlib

/-!
Verification of the replicated state-machine adapter and lifecycle manager
(`internal/rsm`): the offload tracker (`OffloadedStatus`), the managed state
machine (`NativeStateMachine`), the sequential adapter (`RegularStateMachine`)
and the session dedup operations.

Go panics are modelled as `none : Option _`; Go `error` values are modelled
with an explicit error type; `uint64` arithmetic reduces modulo `2 ^ 64` where
overflow matters.  Abstract collaborators (the wrapped user state machine, the
snapshot writer and reader) appear as explicit outcome parameters.
-/

/-- Component identifiers.  In the source `From` is a `uint64` with four named
constants; unknown values make `SetLoaded` and `SetOffloaded` panic. -/
abbrev Component := Nat

/-- The nodehost component (`FromNodeHost`). -/
def FromNodeHost : Component := 0

/-- The step worker component (`FromStepWorker`). -/
def FromStepWorker : Component := 1

/-- The commit worker component (`FromCommitWorker`). -/
def FromCommitWorker : Component := 2

/-- The snapshot worker component (`FromSnapshotWorker`). -/
def FromSnapshotWorker : Component := 3

/-- `OffloadedStatus` tracks whether the managed data store has been offloaded
from the various system components (`managedstatemachine.go`). -/
structure OffloadedStatus where
  readyToDestroy              : Bool
  destroyed                   : Bool
  offloadedFromNodeHost       : Bool
  offloadedFromStepWorker     : Bool
  offloadedFromCommitWorker   : Bool
  offloadedFromSnapshotWorker : Bool
  loadedByStepWorker          : Bool
  loadedByCommitWorker        : Bool
  loadedBySnapshotWorker      : Bool
deriving DecidableEq

/-- The zero value of the `OffloadedStatus` struct: every flag false. -/
def initialStatus : OffloadedStatus :=
  ⟨false, false, false, false, false, false, false, false, false⟩

/-- `OffloadedStatus.SetDestroyed`: set the destroyed flag to true. -/
def setDestroyed (o : OffloadedStatus) : OffloadedStatus :=
  { o with destroyed := true }

/-- `OffloadedStatus.SetLoaded`: mark the data store as loaded by component
`f`.  Panics (`none`) when a worker reports load after the nodehost offload,
when nodehost itself reports load, and on an unknown component value. -/
def setLoaded (o : OffloadedStatus) (f : Component) : Option OffloadedStatus :=
  if o.offloadedFromNodeHost &&
      (f == FromStepWorker || f == FromCommitWorker || f == FromSnapshotWorker) then
    none
  else if f == FromNodeHost then
    none
  else if f == FromStepWorker then
    some { o with loadedByStepWorker := true }
  else if f == FromCommitWorker then
    some { o with loadedByCommitWorker := true }
  else if f == FromSnapshotWorker then
    some { o with loadedBySnapshotWorker := true }
  else
    none

/-- `OffloadedStatus.SetOffloaded`: mark the data store as offloaded from
component `f` (panicking on an unknown value), then, when `f` is the nodehost,
mark every component that never reported loading as offloaded, and finally set
`readyToDestroy` when all four offloaded-from flags hold. -/
def setOffloaded (o : OffloadedStatus) (f : Component) : Option OffloadedStatus :=
  let first : Option OffloadedStatus :=
    if f == FromNodeHost then
      some { o with offloadedFromNodeHost := true }
    else if f == FromStepWorker then
      some { o with offloadedFromStepWorker := true }
    else if f == FromCommitWorker then
      some { o with offloadedFromCommitWorker := true }
    else if f == FromSnapshotWorker then
      some { o with offloadedFromSnapshotWorker := true }
    else
      none
  match first with
  | none => none
  | some o1 =>
    let o2 :=
      if f == FromNodeHost then
        let a := if !o1.loadedByStepWorker then
            { o1 with offloadedFromStepWorker := true } else o1
        let b := if !a.loadedByCommitWorker then
            { a with offloadedFromCommitWorker := true } else a
        if !b.loadedBySnapshotWorker then
          { b with offloadedFromSnapshotWorker := true } else b
      else o1
    if o2.offloadedFromNodeHost && o2.offloadedFromCommitWorker &&
        o2.offloadedFromSnapshotWorker && o2.offloadedFromStepWorker then
      some { o2 with readyToDestroy := true }
    else
      some o2

/-- All four offloaded-from flags of a status. -/
def allOffloaded (o : OffloadedStatus) : Bool :=
  o.offloadedFromNodeHost && o.offloadedFromCommitWorker &&
    o.offloadedFromSnapshotWorker && o.offloadedFromStepWorker

/-- One call on an `OffloadedStatus`: `SetLoaded`, `SetOffloaded` or
`SetDestroyed`. -/
inductive StatusOp where
  | load (f : Component)
  | offload (f : Component)
  | destroy
deriving DecidableEq

/-- Apply one call to a status; `none` when the call panics. -/
def statusStep (o : OffloadedStatus) : StatusOp → Option OffloadedStatus
  | .load f => setLoaded o f
  | .offload f => setOffloaded o f
  | .destroy => some (setDestroyed o)

/-- Apply a sequence of calls to a status; `none` as soon as one panics. -/
def statusRun (o : OffloadedStatus) : List StatusOp → Option OffloadedStatus
  | [] => some o
  | op :: ops =>
    match statusStep o op with
    | none => none
    | some o' => statusRun o' ops

/-- Pointwise order on the nine boolean flags of a status: every flag true on
the left is still true on the right. -/
def statusLe (a b : OffloadedStatus) : Bool :=
  (!a.readyToDestroy || b.readyToDestroy) &&
  (!a.destroyed || b.destroyed) &&
  (!a.offloadedFromNodeHost || b.offloadedFromNodeHost) &&
  (!a.offloadedFromStepWorker || b.offloadedFromStepWorker) &&
  (!a.offloadedFromCommitWorker || b.offloadedFromCommitWorker) &&
  (!a.offloadedFromSnapshotWorker || b.offloadedFromSnapshotWorker) &&
  (!a.loadedByStepWorker || b.loadedByStepWorker) &&
  (!a.loadedByCommitWorker || b.loadedByCommitWorker) &&
  (!a.loadedBySnapshotWorker || b.loadedBySnapshotWorker)

/-- The offloaded-from flag of a status for a given component (false on an
unknown component value). -/
def offloadedFrom (o : OffloadedStatus) (f : Component) : Bool :=
  if f == FromNodeHost then o.offloadedFromNodeHost
  else if f == FromStepWorker then o.offloadedFromStepWorker
  else if f == FromCommitWorker then o.offloadedFromCommitWorker
  else if f == FromSnapshotWorker then o.offloadedFromSnapshotWorker
  else false

/-- Invariant maintained by the status calls: `readyToDestroy` equals the
conjunction of the four offloaded-from flags, and after a nodehost offload
every never-loaded component is marked offloaded. -/
def statusInv (o : OffloadedStatus) : Bool :=
  (o.readyToDestroy == allOffloaded o) &&
  (!o.offloadedFromNodeHost ||
    ((o.loadedByStepWorker || o.offloadedFromStepWorker) &&
     (o.loadedByCommitWorker || o.offloadedFromCommitWorker) &&
     (o.loadedBySnapshotWorker || o.offloadedFromSnapshotWorker)))

/-- State of a `NativeStateMachine` as far as the lifecycle is concerned: its
offloaded status plus the number of times `closeStateMachine` (the underlying
`Close`) has run. -/
structure NsmState where
  status : OffloadedStatus
  closeCount : Nat
deriving DecidableEq

/-- A fresh `NativeStateMachine`: zero-valued status, no close performed. -/
def initialNsm : NsmState := ⟨initialStatus, 0⟩

/-- `NativeStateMachine.Offloaded`: `SetOffloaded`, then, when
`ReadyToDestroy` holds and the instance is not yet destroyed, close the
underlying state machine and `SetDestroyed`. -/
def nsmOffloaded (st : NsmState) (f : Component) : Option NsmState :=
  match setOffloaded st.status f with
  | none => none
  | some s =>
    if s.readyToDestroy && !s.destroyed then
      some ⟨setDestroyed s, st.closeCount + 1⟩
    else
      some ⟨s, st.closeCount⟩

/-- `NativeStateMachine.Loaded`: delegate to `SetLoaded`. -/
def nsmLoaded (st : NsmState) (f : Component) : Option NsmState :=
  match setLoaded st.status f with
  | none => none
  | some s => some ⟨s, st.closeCount⟩

/-- One lifecycle call on a `NativeStateMachine`. -/
inductive NsmOp where
  | loaded (f : Component)
  | offloaded (f : Component)
deriving DecidableEq

/-- Apply one lifecycle call; `none` when it panics. -/
def nsmStep (st : NsmState) : NsmOp → Option NsmState
  | .loaded f => nsmLoaded st f
  | .offloaded f => nsmOffloaded st f

/-- Apply a sequence of lifecycle calls. -/
def nsmRun (st : NsmState) : List NsmOp → Option NsmState
  | [] => some st
  | op :: ops =>
    match nsmStep st op with
    | none => none
    | some st' => nsmRun st' ops

/-- Lifecycle invariant of a `NativeStateMachine`: the status invariant, the
destroyed flag tracking `readyToDestroy`, and the underlying `Close` having
run exactly once when destruction happened. -/
def nsmInv (st : NsmState) : Bool :=
  statusInv st.status &&
  (st.status.destroyed == st.status.readyToDestroy) &&
  (st.closeCount == if st.status.destroyed then 1 else 0)

/-- Errors visible to this core: the `ErrClusterClosed` sentinel, the
`io.ErrShortWrite` sentinel, and opaque collaborator errors. -/
inductive RsmError where
  | clusterClosed
  | shortWrite
  | ioError (code : Nat)
deriving DecidableEq

/-- `ErrClusterClosed`: the raft cluster has already been closed. -/
def ErrClusterClosed : RsmError := RsmError.clusterClosed

/-- `io.ErrShortWrite`: fewer bytes written than requested. -/
def ErrShortWrite : RsmError := RsmError.shortWrite

/-- `sm.Entry`: index, command and result of one committed entry. -/
structure Entry where
  index : Nat
  cmd : List Nat
  result : Nat
deriving DecidableEq

/-- Modelled from the spec: `Session` (its source file is outside this tree) is
the per-client dedup record holding the client identity, the `respondedTo`
high-water mark and the retained results keyed by series ID. -/
structure Session where
  clientID : Nat
  respondedTo : Nat
  results : List (Nat × Nat)
deriving DecidableEq

/-- Modelled from the spec: `session.hasResponded` holds when the series ID is
at or below the `respondedTo` high-water mark. -/
def hasResponded (s : Session) (seriesID : Nat) : Bool :=
  decide (seriesID ≤ s.respondedTo)

/-- Modelled from the spec: `session.getResponse` returns the retained result
for the series ID when present. -/
def getResponse (s : Session) (seriesID : Nat) : Option Nat :=
  Option.map Prod.snd (List.find? (fun p => p.1 == seriesID) s.results)

/-- Modelled from the spec: `session.addResponse` records a result for a
series ID and is fatal (`none`) when one is already retained. -/
def addResponse (s : Session) (seriesID result : Nat) : Option Session :=
  match getResponse s seriesID with
  | some _ => none
  | none => some { s with results := (seriesID, result) :: s.results }

/-- `SessionManager.UpdateRequired`: the three-way dedup check returning
(request result, responded before, update required). -/
def updateRequired (session : Session) (seriesID : Nat) : Nat × Bool × Bool :=
  if hasResponded session seriesID then (0, true, false)
  else
    match getResponse session seriesID with
    | some v => (v, false, false)
    | none => (0, false, true)

/-- `NativeStateMachine.Update`: panic when the supplied session already
retains a result for the series ID; otherwise wrap the data as one entry
tagged with the index, drive it through the adapter's `Update` (panicking
unless exactly one result comes back), record the result in the session when
one was supplied, and return the raw result.  The adapter is abstracted by its
`Update` function; the returned pair is the possibly updated session and the
result. -/
def nativeUpdate (update : List Entry → List Entry) (session : Option Session)
    (seriesID index term : Nat) (data : List Nat) :
    Option (Option Session × Nat) :=
  let dup : Bool :=
    match session with
    | some s => (getResponse s seriesID).isSome
    | none => false
  if dup then none
  else
    let results := update [{ index := index, cmd := data, result := 0 }]
    match results with
    | [r] =>
      match session with
      | some s =>
        match addResponse s seriesID r.result with
        | some s' => some (some s', r.result)
        | none => none
      | none => some (none, r.result)
    | _ => none

/-- `NativeStateMachine.Lookup`: under the read lock, fail with
`ErrClusterClosed` when the instance is destroyed, otherwise delegate to the
adapter's `Lookup`.  The boolean of the result records whether the adapter's
`Lookup` ran. -/
def nativeLookup (destroyed : Bool)
    (look : List Nat → Option (List Nat) × Option RsmError) (data : List Nat) :
    (Option (List Nat) × Option RsmError) × Bool :=
  if destroyed then ((none, some ErrClusterClosed), false)
  else (look data, true)

/-- `RegularStateMachine.Update`: panic unless the batch holds exactly one
entry; apply the wrapped state machine's update (abstracted by `update`) to
its command and attach the result. -/
def regularUpdate (update : List Nat → Nat) (entries : List Entry) :
    Option (List Entry) :=
  match entries with
  | [e] => some [{ e with result := update e.cmd }]
  | _ => none

/-- `RegularStateMachine.PrepareSnapshot`: unconditionally a panic. -/
def regularPrepareSnapshot {α : Type} : Option α := none

/-- `RegularStateMachine.SaveSnapshot`: panic when the snapshot context is
non-nil, otherwise delegate to the wrapped state machine's save (abstracted by
its outcome `save`). -/
def regularSaveSnapshot {γ : Type} (ctx : Option γ)
    (save : Except RsmError Nat) : Option (Except RsmError Nat) :=
  match ctx with
  | some _ => none
  | none => some save

/-- `RegularStateMachine.ConcurrentSnapshot` returns false. -/
def regularConcurrentSnapshot : Bool := false

/-- `ConcurrentStateMachine.ConcurrentSnapshot` returns true. -/
def concurrentCapable : Bool := true

/-- `NativeStateMachine.PrepareSnapshot`: panic when the adapter is not
capable of concurrent snapshots, otherwise delegate to the adapter's
`PrepareSnapshot` (abstracted by its outcome `prepare`). -/
def nativePrepareSnapshot {γ : Type} (concurrent : Bool)
    (prepare : Except RsmError γ) : Option (Except RsmError γ) :=
  if !concurrent then none
  else some prepare

/-- Modelled from the spec: the fixed size of the trailing snapshot header
(`SnapshotHeaderSize`, defined outside this tree). -/
def SnapshotHeaderSize : Nat := 1024

/-- Observable steps of `NativeStateMachine.SaveSnapshot` against the snapshot
writer and the adapter, in call order. -/
inductive SaveEvent where
  | writeSession
  | adapterSave
  | saveHeader (smsz sz : Nat)
deriving DecidableEq

/-- Collaborator outcomes for one `SaveSnapshot` call: the serialized session
bytes, the writer's report for writing them, the adapter save outcome and the
header write outcome. -/
structure SaveEnv where
  session : List Nat
  writeN : Nat
  writeErr : Option RsmError
  smSave : Except RsmError Nat
  headerErr : Option RsmError

/-- `NativeStateMachine.SaveSnapshot`: write the session bytes (failing on a
writer error, then on a short write with `ErrShortWrite`), then the adapter's
own payload, then the trailing header with both section sizes; on success
return `sz + smsz + SnapshotHeaderSize` as a `uint64`.  The event list records
the calls made, in order. -/
def nativeSaveSnapshot (env : SaveEnv) : Except RsmError Nat × List SaveEvent :=
  match env.writeErr with
  | some e => (Except.error e, [SaveEvent.writeSession])
  | none =>
    if env.writeN != env.session.length then
      (Except.error ErrShortWrite, [SaveEvent.writeSession])
    else
      let smsz := env.session.length
      match env.smSave with
      | Except.error e =>
        (Except.error e, [SaveEvent.writeSession, SaveEvent.adapterSave])
      | Except.ok sz =>
        match env.headerErr with
        | some e =>
          (Except.error e,
           [SaveEvent.writeSession, SaveEvent.adapterSave,
            SaveEvent.saveHeader smsz sz])
        | none =>
          (Except.ok ((sz + smsz + SnapshotHeaderSize) % 2 ^ 64),
           [SaveEvent.writeSession, SaveEvent.adapterSave,
            SaveEvent.saveHeader smsz sz])

/-- Collaborator outcomes for one `RecoverFromSnapshot` call: opening the
reader, reading the header, loading the sessions, the adapter recovery, and
closing the reader. -/
structure RecoverEnv where
  openErr : Option RsmError
  headerErr : Option RsmError
  sessionsErr : Option RsmError
  smErr : Option RsmError
  closeErr : Option RsmError
deriving DecidableEq

/-- What one `RecoverFromSnapshot` call did: the error it returned, whether
the reader was closed, and which stages ran. -/
structure RecoverResult where
  returnedErr : Option RsmError
  readerClosed : Bool
  sessionsLoadRan : Bool
  smRecoverRan : Bool
deriving DecidableEq

/-- `NativeStateMachine.RecoverFromSnapshot`: open the reader (returning the
open error on failure), then read the header, load the sessions and run the
adapter recovery, stopping at the first failing stage.  The function uses a
named return value `err`, and the deferred `err = reader.Close()` runs on
every exit path after a successful open: it closes the reader and OVERWRITES
the named return with the close result, so the value actually returned after a
successful open is always the close outcome.  (`ValidateHeader` and
`ValidatePayload` are reader-side checks outside this tree that return no
error.) -/
def nativeRecoverFromSnapshot (env : RecoverEnv) : RecoverResult :=
  match env.openErr with
  | some e => ⟨some e, false, false, false⟩
  | none =>
    match env.headerErr with
    | some _ => ⟨env.closeErr, true, false, false⟩
    | none =>
      match env.sessionsErr with
      | some _ => ⟨env.closeErr, true, true, false⟩
      | none =>
        match env.smErr with
        | some _ => ⟨env.closeErr, true, true, true⟩
        | none => ⟨env.closeErr, true, true, true⟩

/-- A status with only the nodehost-offloaded flag set. -/
def c9Status : OffloadedStatus :=
  ⟨false, false, true, false, false, false, false, false, false⟩

/-- The status reached from the zero status by one nodehost offload. -/
def c10Status : OffloadedStatus :=
  ⟨true, false, true, true, true, true, false, false, false⟩

/-- The managed state reached from a fresh instance by one nodehost
offload: destroyed, with one close performed. -/
def c1State : NsmState :=
  ⟨⟨true, true, true, true, true, true, false, false, false⟩, 1⟩

lemma setLoaded_all_le (o : OffloadedStatus) (f : Component) :
    Option.all (statusLe o) (setLoaded o f) = true := by
  obtain ⟨a1, a2, a3, a4, a5, a6, a7, a8, a9⟩ := o
  match f with
  | 0 => revert a1 a2 a3 a4 a5 a6 a7 a8 a9; decide
  | 1 => revert a1 a2 a3 a4 a5 a6 a7 a8 a9; decide
  | 2 => revert a1 a2 a3 a4 a5 a6 a7 a8 a9; decide
  | 3 => revert a1 a2 a3 a4 a5 a6 a7 a8 a9; decide
  | _+4 => cases a3 <;> rfl

lemma setOffloaded_all_le (o : OffloadedStatus) (f : Component) :
    Option.all (statusLe o) (setOffloaded o f) = true := by
  obtain ⟨a1, a2, a3, a4, a5, a6, a7, a8, a9⟩ := o
  match f with
  | 0 => revert a1 a2 a3 a4 a5 a6 a7 a8 a9; decide
  | 1 => revert a1 a2 a3 a4 a5 a6 a7 a8 a9; decide
  | 2 => revert a1 a2 a3 a4 a5 a6 a7 a8 a9; decide
  | 3 => revert a1 a2 a3 a4 a5 a6 a7 a8 a9; decide
  | _+4 => rfl

lemma setLoaded_inv (o : OffloadedStatus) (f : Component)
    (h : statusInv o = true) :
    Option.all (fun s => statusInv s &&
        (s.destroyed == o.destroyed) && (s.readyToDestroy == o.readyToDestroy))
      (setLoaded o f) = true := by
  obtain ⟨a1, a2, a3, a4, a5, a6, a7, a8, a9⟩ := o
  match f with
  | 0 => revert a1 a2 a3 a4 a5 a6 a7 a8 a9 h; decide
  | 1 => revert a1 a2 a3 a4 a5 a6 a7 a8 a9 h; decide
  | 2 => revert a1 a2 a3 a4 a5 a6 a7 a8 a9 h; decide
  | 3 => revert a1 a2 a3 a4 a5 a6 a7 a8 a9 h; decide
  | _+4 => cases a3 <;> rfl

lemma setOffloaded_inv (o : OffloadedStatus) (f : Component)
    (h : statusInv o = true) :
    Option.all (fun s => statusInv s && (s.destroyed == o.destroyed))
      (setOffloaded o f) = true := by
  obtain ⟨a1, a2, a3, a4, a5, a6, a7, a8, a9⟩ := o
  match f with
  | 0 => revert a1 a2 a3 a4 a5 a6 a7 a8 a9 h; decide
  | 1 => revert a1 a2 a3 a4 a5 a6 a7 a8 a9 h; decide
  | 2 => revert a1 a2 a3 a4 a5 a6 a7 a8 a9 h; decide
  | 3 => revert a1 a2 a3 a4 a5 a6 a7 a8 a9 h; decide
  | _+4 => rfl

lemma setOffloaded_idem (o : OffloadedStatus) (f : Component)
    (hinv : statusInv o = true) (hoff : offloadedFrom o f = true) :
    setOffloaded o f = some o := by
  obtain ⟨a1, a2, a3, a4, a5, a6, a7, a8, a9⟩ := o
  match f with
  | 0 => revert a1 a2 a3 a4 a5 a6 a7 a8 a9 hinv hoff; decide
  | 1 => revert a1 a2 a3 a4 a5 a6 a7 a8 a9 hinv hoff; decide
  | 2 => revert a1 a2 a3 a4 a5 a6 a7 a8 a9 hinv hoff; decide
  | 3 => revert a1 a2 a3 a4 a5 a6 a7 a8 a9 hinv hoff; decide
  | _+4 => exact absurd hoff (by exact fun h => Bool.false_ne_true h)

lemma setOffloaded_nodehost_marks (o : OffloadedStatus) :
    Option.all (fun s =>
        (o.loadedByStepWorker || s.offloadedFromStepWorker) &&
        (o.loadedByCommitWorker || s.offloadedFromCommitWorker) &&
        (o.loadedBySnapshotWorker || s.offloadedFromSnapshotWorker))
      (setOffloaded o FromNodeHost) = true := by
  obtain ⟨a1, a2, a3, a4, a5, a6, a7, a8, a9⟩ := o
  revert a1 a2 a3 a4 a5 a6 a7 a8 a9; decide

lemma statusInv_initial : statusInv initialStatus = true := by decide

lemma bool_imp_trans :
    ∀ x y z : Bool, (!x || y) = true → (!y || z) = true → (!x || z) = true := by
  decide

lemma statusLe_trans {a b c : OffloadedStatus}
    (h1 : statusLe a b = true) (h2 : statusLe b c = true) :
    statusLe a c = true := by
  simp only [statusLe, Bool.and_eq_true] at h1 h2 ⊢
  obtain ⟨⟨⟨⟨⟨⟨⟨⟨p1, p2⟩, p3⟩, p4⟩, p5⟩, p6⟩, p7⟩, p8⟩, p9⟩ := h1
  obtain ⟨⟨⟨⟨⟨⟨⟨⟨q1, q2⟩, q3⟩, q4⟩, q5⟩, q6⟩, q7⟩, q8⟩, q9⟩ := h2
  exact ⟨⟨⟨⟨⟨⟨⟨⟨bool_imp_trans _ _ _ p1 q1, bool_imp_trans _ _ _ p2 q2⟩,
    bool_imp_trans _ _ _ p3 q3⟩, bool_imp_trans _ _ _ p4 q4⟩,
    bool_imp_trans _ _ _ p5 q5⟩, bool_imp_trans _ _ _ p6 q6⟩,
    bool_imp_trans _ _ _ p7 q7⟩, bool_imp_trans _ _ _ p8 q8⟩,
    bool_imp_trans _ _ _ p9 q9⟩

lemma statusLe_refl (o : OffloadedStatus) : statusLe o o = true := by
  obtain ⟨a1, a2, a3, a4, a5, a6, a7, a8, a9⟩ := o
  revert a1 a2 a3 a4 a5 a6 a7 a8 a9; decide

lemma statusLe_setDestroyed (o : OffloadedStatus) :
    statusLe o (setDestroyed o) = true := by
  obtain ⟨a1, a2, a3, a4, a5, a6, a7, a8, a9⟩ := o
  revert a1 a2 a3 a4 a5 a6 a7 a8 a9; decide

lemma statusInv_setDestroyed (o : OffloadedStatus) :
    statusInv (setDestroyed o) = statusInv o := by
  obtain ⟨a1, a2, a3, a4, a5, a6, a7, a8, a9⟩ := o
  rfl

lemma all_some {α : Type} {p : α → Bool} {x : Option α} {v : α}
    (h1 : Option.all p x = true) (h2 : x = some v) : p v = true := by
  subst h2; exact h1

lemma statusStep_le (o : OffloadedStatus) (op : StatusOp) (o' : OffloadedStatus)
    (h : statusStep o op = some o') : statusLe o o' = true := by
  cases op with
  | load f => exact all_some (setLoaded_all_le o f) h
  | offload f => exact all_some (setOffloaded_all_le o f) h
  | destroy =>
    simp only [statusStep, Option.some.injEq] at h
    subst h; exact statusLe_setDestroyed o

lemma statusStep_inv (o : OffloadedStatus) (op : StatusOp) (o' : OffloadedStatus)
    (hinv : statusInv o = true) (h : statusStep o op = some o') :
    statusInv o' = true := by
  cases op with
  | load f =>
    have := all_some (setLoaded_inv o f hinv) h
    simp only [Bool.and_eq_true] at this
    exact this.1.1
  | offload f =>
    have := all_some (setOffloaded_inv o f hinv) h
    simp only [Bool.and_eq_true] at this
    exact this.1
  | destroy =>
    simp only [statusStep, Option.some.injEq] at h
    subst h; rw [statusInv_setDestroyed]; exact hinv

lemma statusRun_le :
    ∀ (ops : List StatusOp) (o o' : OffloadedStatus),
      statusRun o ops = some o' → statusLe o o' = true := by
  intro ops
  induction ops with
  | nil =>
    intro o o' h
    simp only [statusRun, Option.some.injEq] at h
    subst h; exact statusLe_refl o
  | cons op ops ih =>
    intro o o'' h
    simp only [statusRun] at h
    cases hs : statusStep o op with
    | none => rw [hs] at h; cases h
    | some o' =>
      rw [hs] at h
      exact statusLe_trans (statusStep_le o op o' hs) (ih o' o'' h)

lemma statusRun_inv :
    ∀ (ops : List StatusOp) (o o' : OffloadedStatus),
      statusInv o = true → statusRun o ops = some o' → statusInv o' = true := by
  intro ops
  induction ops with
  | nil =>
    intro o o' hinv h
    simp only [statusRun, Option.some.injEq] at h
    subst h; exact hinv
  | cons op ops ih =>
    intro o o'' hinv h
    simp only [statusRun] at h
    cases hs : statusStep o op with
    | none => rw [hs] at h; cases h
    | some o' =>
      rw [hs] at h
      exact ih o' o'' (statusStep_inv o op o' hinv hs) h

lemma statusLe_rtd {a b : OffloadedStatus} (h : statusLe a b = true)
    (ha : a.readyToDestroy = true) : b.readyToDestroy = true := by
  simp only [statusLe, Bool.and_eq_true] at h
  have h1 := h.1.1.1.1.1.1.1.1
  rw [ha] at h1
  simpa using h1

lemma nsmStep_inv (st : NsmState) (op : NsmOp) (st' : NsmState)
    (hinv : nsmInv st = true) (h : nsmStep st op = some st') :
    nsmInv st' = true := by
  simp only [nsmInv, Bool.and_eq_true, beq_iff_eq] at hinv
  obtain ⟨⟨hstat, hdr⟩, hcc⟩ := hinv
  cases op with
  | loaded f =>
    simp only [nsmStep, nsmLoaded] at h
    cases hsl : setLoaded st.status f with
    | none => rw [hsl] at h; cases h
    | some s =>
      rw [hsl] at h
      simp only [Option.some.injEq] at h
      subst h
      have hall := all_some (setLoaded_inv st.status f hstat) hsl
      simp only [Bool.and_eq_true, beq_iff_eq] at hall
      obtain ⟨⟨hs1, hs2⟩, hs3⟩ := hall
      simp only [nsmInv, Bool.and_eq_true, beq_iff_eq]
      exact ⟨⟨hs1, by rw [hs2, hs3, hdr]⟩, by rw [hs2]; exact hcc⟩
  | offloaded f =>
    simp only [nsmStep, nsmOffloaded] at h
    cases hso : setOffloaded st.status f with
    | none => rw [hso] at h; cases h
    | some s =>
      rw [hso] at h
      dsimp only at h
      have hall := all_some (setOffloaded_inv st.status f hstat) hso
      simp only [Bool.and_eq_true, beq_iff_eq] at hall
      obtain ⟨hs1, hs2⟩ := hall
      by_cases hc : (s.readyToDestroy && !s.destroyed) = true
      · rw [if_pos hc] at h
        simp only [Option.some.injEq] at h
        subst h
        simp only [Bool.and_eq_true, Bool.not_eq_true'] at hc
        obtain ⟨hrtd, hdes⟩ := hc
        simp only [nsmInv, Bool.and_eq_true, beq_iff_eq]
        refine ⟨⟨by rw [statusInv_setDestroyed]; exact hs1, ?_⟩, ?_⟩
        · show true = (setDestroyed s).readyToDestroy
          show true = s.readyToDestroy
          exact hrtd.symm
        · show st.closeCount + 1 = if (setDestroyed s).destroyed then 1 else 0
          show st.closeCount + 1 = if true = true then 1 else 0
          rw [hdes] at hs2
          rw [← hs2] at hcc
          simp only [if_neg (by simp : ¬(false = true))] at hcc
          simp [hcc]
      · rw [if_neg hc] at h
        simp only [Option.some.injEq] at h
        subst h
        simp only [nsmInv, Bool.and_eq_true, beq_iff_eq]
        cases hsd : s.destroyed with
        | true =>
          have hod : st.status.destroyed = true := by rw [← hs2]; exact hsd
          have hortd : st.status.readyToDestroy = true := by rw [← hdr]; exact hod
          have hle := all_some (setOffloaded_all_le st.status f) hso
          have hsrtd := statusLe_rtd hle hortd
          refine ⟨⟨hs1, hsrtd.symm⟩, ?_⟩
          rw [hod] at hcc
          exact hcc
        | false =>
          have hsrtd : s.readyToDestroy = false := by
            cases hr : s.readyToDestroy with
            | false => rfl
            | true => exact absurd (by rw [hr, hsd]; decide) hc
          have hod : st.status.destroyed = false := by rw [← hs2]; exact hsd
          refine ⟨⟨hs1, hsrtd.symm⟩, ?_⟩
          rw [hod] at hcc
          exact hcc

lemma nsmRun_inv :
    ∀ (ops : List NsmOp) (st st' : NsmState),
      nsmInv st = true → nsmRun st ops = some st' → nsmInv st' = true := by
  intro ops
  induction ops with
  | nil =>
    intro st st' hinv h
    simp only [nsmRun, Option.some.injEq] at h
    subst h; exact hinv
  | cons op ops ih =>
    intro st st'' hinv h
    simp only [nsmRun] at h
    cases hs : nsmStep st op with
    | none => rw [hs] at h; cases h
    | some st' =>
      rw [hs] at h
      exact ih st' st'' (nsmStep_inv st op st' hinv hs) h

lemma nsmInv_initial : nsmInv initialNsm = true := by decide

lemma setDestroyed_offFlags (s : OffloadedStatus) :
    (setDestroyed s).offloadedFromStepWorker = s.offloadedFromStepWorker ∧
    (setDestroyed s).offloadedFromCommitWorker = s.offloadedFromCommitWorker ∧
    (setDestroyed s).offloadedFromSnapshotWorker = s.offloadedFromSnapshotWorker := by
  exact ⟨rfl, rfl, rfl⟩

/-- C1: over every panic-free sequence of `Loaded`/`Offloaded` calls on a
fresh managed state machine, `readyToDestroy` holds if and only if all four
offloaded-from flags hold; the underlying `Close` has run exactly once exactly
when `readyToDestroy` holds (so the first call establishing it performed the
destruction); and a nodehost `Offloaded` call marks every component that never
reported loading as offloaded. -/
theorem offloaded_close_exactly_once :
    ∀ (ops : List NsmOp) (st : NsmState), nsmRun initialNsm ops = some st →
      (st.status.readyToDestroy = allOffloaded st.status) ∧
      (st.closeCount = if st.status.readyToDestroy = true then 1 else 0) ∧
      (∀ st', nsmStep st (NsmOp.offloaded FromNodeHost) = some st' →
        (st.status.loadedByStepWorker = false →
          st'.status.offloadedFromStepWorker = true) ∧
        (st.status.loadedByCommitWorker = false →
          st'.status.offloadedFromCommitWorker = true) ∧
        (st.status.loadedBySnapshotWorker = false →
          st'.status.offloadedFromSnapshotWorker = true)) := by
  intro ops st h
  have hinv := nsmRun_inv ops initialNsm st nsmInv_initial h
  simp only [nsmInv, Bool.and_eq_true, beq_iff_eq] at hinv
  obtain ⟨⟨hstat, hdr⟩, hcc⟩ := hinv
  have hiff : st.status.readyToDestroy = allOffloaded st.status := by
    have := hstat
    simp only [statusInv, Bool.and_eq_true, beq_iff_eq] at this
    exact this.1
  refine ⟨hiff, ?_, ?_⟩
  · rw [hdr] at hcc
    exact hcc
  · intro st' hstep
    simp only [nsmStep, nsmOffloaded] at hstep
    cases hso : setOffloaded st.status FromNodeHost with
    | none => rw [hso] at hstep; cases hstep
    | some s =>
      rw [hso] at hstep
      dsimp only at hstep
      have hmarks := all_some (setOffloaded_nodehost_marks st.status) hso
      simp only [Bool.and_eq_true, Bool.or_eq_true] at hmarks
      obtain ⟨⟨hm1, hm2⟩, hm3⟩ := hmarks
      have hfin : st'.status.offloadedFromStepWorker = s.offloadedFromStepWorker ∧
          st'.status.offloadedFromCommitWorker = s.offloadedFromCommitWorker ∧
          st'.status.offloadedFromSnapshotWorker = s.offloadedFromSnapshotWorker := by
        by_cases hc : (s.readyToDestroy && !s.destroyed) = true
        · rw [if_pos hc] at hstep
          simp only [Option.some.injEq] at hstep
          subst hstep
          exact ⟨rfl, rfl, rfl⟩
        · rw [if_neg hc] at hstep
          simp only [Option.some.injEq] at hstep
          subst hstep
          exact ⟨rfl, rfl, rfl⟩
      obtain ⟨hf1, hf2, hf3⟩ := hfin
      refine ⟨?_, ?_, ?_⟩
      · intro hnl
        rcases hm1 with hA | hB
        · rw [hnl] at hA; cases hA
        · rw [hf1]; exact hB
      · intro hnl
        rcases hm2 with hA | hB
        · rw [hnl] at hA; cases hA
        · rw [hf2]; exact hB
      · intro hnl
        rcases hm3 with hA | hB
        · rw [hnl] at hA; cases hA
        · rw [hf3]; exact hB

/-- C1 witness: after a single nodehost offload on a fresh instance the
theorem applies, and the state has close count one with `readyToDestroy`
set. -/
theorem offloaded_close_exactly_once_witness :
    c1State.closeCount = if c1State.status.readyToDestroy = true then 1 else 0 :=
  (offloaded_close_exactly_once [NsmOp.offloaded FromNodeHost] c1State rfl).2.1

/-- C9: on any status whose offloaded-from-nodehost flag is set, `SetLoaded`
from the step, commit or snapshot worker panics; and `SetLoaded` reporting
the nodehost is always a panic. -/
theorem setLoaded_after_nodehost_offload_fatal :
    ∀ o : OffloadedStatus,
      (o.offloadedFromNodeHost = true →
        setLoaded o FromStepWorker = none ∧
        setLoaded o FromCommitWorker = none ∧
        setLoaded o FromSnapshotWorker = none) ∧
      setLoaded o FromNodeHost = none := by
  intro o
  obtain ⟨a1, a2, a3, a4, a5, a6, a7, a8, a9⟩ := o
  revert a1 a2 a3 a4 a5 a6 a7 a8 a9; decide

/-- C9 witness: the theorem applied to a status offloaded from nodehost. -/
theorem setLoaded_after_nodehost_offload_fatal_witness :
    setLoaded c9Status FromStepWorker = none :=
  ((setLoaded_after_nodehost_offload_fatal c9Status).1 rfl).1

/-- C10: every flag of `OffloadedStatus` is monotone under any panic-free
sequence of `SetLoaded`/`SetOffloaded`/`SetDestroyed` calls, and on any state
reachable from the zero status, repeating `SetOffloaded` for a component
already offloaded returns the state unchanged. -/
theorem offloadedStatus_flags_monotone :
    (∀ (o : OffloadedStatus) (ops : List StatusOp) (o' : OffloadedStatus),
      statusRun o ops = some o' → statusLe o o' = true) ∧
    (∀ (ops : List StatusOp) (o : OffloadedStatus) (f : Component),
      statusRun initialStatus ops = some o → offloadedFrom o f = true →
      statusStep o (StatusOp.offload f) = some o) := by
  constructor
  · intro o ops o' h
    exact statusRun_le ops o o' h
  · intro ops o f h hoff
    have hinv := statusRun_inv ops initialStatus o statusInv_initial h
    exact setOffloaded_idem o f hinv hoff

/-- C10 witness: the theorem applied to the one-step run offloading from
nodehost: the flags only grew, and repeating the offload is the identity. -/
theorem offloadedStatus_flags_monotone_witness :
    statusLe initialStatus c10Status = true ∧
    statusStep c10Status (StatusOp.offload FromNodeHost) = some c10Status :=
  ⟨offloadedStatus_flags_monotone.1 initialStatus
      [StatusOp.offload FromNodeHost] c10Status rfl,
   offloadedStatus_flags_monotone.2
      [StatusOp.offload FromNodeHost] c10Status FromNodeHost rfl rfl⟩

/-- C3: `Update` panics when the supplied session already retains a result for
the series ID; otherwise it wraps the data as a single entry tagged with the
index, drives it through the adapter's `Update`, records the result under the
series ID when a session was supplied, and returns the raw result. -/
theorem nativeUpdate_dedup_and_record
    (update : List Entry → List Entry) (s : Session)
    (seriesID index term : Nat) (data : List Nat) :
    ((getResponse s seriesID).isSome = true →
      nativeUpdate update (some s) seriesID index term data = none) ∧
    (∀ e : Entry, getResponse s seriesID = none →
      update [{ index := index, cmd := data, result := 0 }] = [e] →
      nativeUpdate update (some s) seriesID index term data =
        some (some { s with results := (seriesID, e.result) :: s.results },
          e.result)) ∧
    (∀ e : Entry, update [{ index := index, cmd := data, result := 0 }] = [e] →
      nativeUpdate update none seriesID index term data =
        some (none, e.result)) := by
  refine ⟨?_, ?_, ?_⟩
  · intro h
    simp [nativeUpdate, h]
  · intro e h1 h2
    simp [nativeUpdate, h1, h2, addResponse]
  · intro e h2
    simp [nativeUpdate, h2]

/-- C3 witness: the theorem applied to a concrete adapter, session and
command. -/
theorem nativeUpdate_dedup_and_record_witness :
    nativeUpdate (fun es => List.map (fun e => { e with result := 7 }) es)
      (some ⟨1, 0, []⟩) 3 5 0 [2] =
      some (some ⟨1, 0, [(3, 7)]⟩, 7) :=
  (nativeUpdate_dedup_and_record _ ⟨1, 0, []⟩ 3 5 0 [2]).2.1 ⟨5, [2], 7⟩ rfl rfl

/-- C4: the dedup check returns exactly one of three outcomes: already
cleared below the high-water mark, a retained prior result, or apply
required. -/
theorem updateRequired_three_way (s : Session) (seriesID : Nat) :
    (seriesID ≤ s.respondedTo → updateRequired s seriesID = (0, true, false)) ∧
    (∀ v : Nat, ¬ seriesID ≤ s.respondedTo → getResponse s seriesID = some v →
      updateRequired s seriesID = (v, false, false)) ∧
    (¬ seriesID ≤ s.respondedTo → getResponse s seriesID = none →
      updateRequired s seriesID = (0, false, true)) := by
  refine ⟨?_, ?_, ?_⟩
  · intro h
    simp [updateRequired, hasResponded, h]
  · intro v h hres
    simp [updateRequired, hasResponded, h, hres]
  · intro h hres
    simp [updateRequired, hasResponded, h, hres]

/-- C4 witness: the theorem applied to a session with high-water mark 4 and a
retained result for series 6. -/
theorem updateRequired_three_way_witness :
    updateRequired ⟨1, 4, [(6, 9)]⟩ 3 = (0, true, false) ∧
    updateRequired ⟨1, 4, [(6, 9)]⟩ 6 = (9, false, false) ∧
    updateRequired ⟨1, 4, [(6, 9)]⟩ 7 = (0, false, true) :=
  ⟨(updateRequired_three_way ⟨1, 4, [(6, 9)]⟩ 3).1 (by decide),
   (updateRequired_three_way ⟨1, 4, [(6, 9)]⟩ 6).2.1 9 (by decide) rfl,
   (updateRequired_three_way ⟨1, 4, [(6, 9)]⟩ 7).2.2 (by decide) rfl⟩

/-- C5: `Lookup` on a destroyed instance returns `ErrClusterClosed` without
invoking the adapter's `Lookup`; on a live instance it returns the adapter's
result, having invoked it. -/
theorem nativeLookup_destroyed_guard :
    ∀ (look : List Nat → Option (List Nat) × Option RsmError) (data : List Nat),
      nativeLookup true look data = ((none, some ErrClusterClosed), false) ∧
      nativeLookup false look data = (look data, true) := by
  intro look data
  exact ⟨rfl, rfl⟩

/-- C6: with no failing step `SaveSnapshot` writes the session bytes, then the
adapter payload, then the header carrying both section sizes, and returns
session-bytes + adapter-bytes + header size; a short session write yields
`ErrShortWrite` before the adapter's save path ever runs. -/
theorem nativeSaveSnapshot_layout (env : SaveEnv) :
    (∀ sz : Nat, env.writeErr = none → env.writeN = env.session.length →
      env.smSave = Except.ok sz → env.headerErr = none →
      env.session.length + sz + SnapshotHeaderSize < 2 ^ 64 →
      nativeSaveSnapshot env =
        (Except.ok (env.session.length + sz + SnapshotHeaderSize),
         [SaveEvent.writeSession, SaveEvent.adapterSave,
          SaveEvent.saveHeader env.session.length sz])) ∧
    (env.writeErr = none → env.writeN ≠ env.session.length →
      nativeSaveSnapshot env =
        (Except.error ErrShortWrite, [SaveEvent.writeSession])) := by
  constructor
  · intro sz h1 h2 h3 h4 h5
    simp [nativeSaveSnapshot, h1, h2, h3, h4]
    omega
  · intro h1 h2
    have hbne : (env.writeN != env.session.length) = true := by
      simpa [bne_iff_ne] using h2
    simp [nativeSaveSnapshot, h1, hbne]

/-- C6 witness: the theorem applied to a two-byte session section with a
five-byte adapter payload, and to a short session write. -/
theorem nativeSaveSnapshot_layout_witness :
    nativeSaveSnapshot ⟨[1, 2], 2, none, Except.ok 5, none⟩ =
      (Except.ok (2 + 5 + SnapshotHeaderSize),
       [SaveEvent.writeSession, SaveEvent.adapterSave,
        SaveEvent.saveHeader 2 5]) ∧
    nativeSaveSnapshot ⟨[1, 2], 1, none, Except.ok 5, none⟩ =
      (Except.error ErrShortWrite, [SaveEvent.writeSession]) :=
  ⟨(nativeSaveSnapshot_layout ⟨[1, 2], 2, none, Except.ok 5, none⟩).1 5
      rfl rfl rfl rfl (by decide),
   (nativeSaveSnapshot_layout ⟨[1, 2], 1, none, Except.ok 5, none⟩).2
      rfl (by decide)⟩

/-- C7: the sequential adapter's `Update` panics unless the batch holds
exactly one entry; with one entry it applies the command and returns the
batch with the result attached. -/
theorem regularUpdate_single_entry (update : List Nat → Nat)
    (entries : List Entry) :
    (entries.length ≠ 1 → regularUpdate update entries = none) ∧
    (∀ e : Entry, entries = [e] →
      regularUpdate update entries =
        some [{ e with result := update e.cmd }]) := by
  constructor
  · intro h
    match entries with
    | [] => rfl
    | [e] => exact absurd rfl h
    | e1 :: e2 :: rest => rfl
  · intro e he
    subst he
    rfl

/-- C7 witness: the theorem applied to the empty batch and to a singleton
batch. -/
theorem regularUpdate_single_entry_witness :
    regularUpdate (fun _ => 9) [] = none ∧
    regularUpdate (fun _ => 9) [⟨1, [2], 0⟩] = some [⟨1, [2], 9⟩] :=
  ⟨(regularUpdate_single_entry (fun _ => 9) []).1 (by decide),
   (regularUpdate_single_entry (fun _ => 9) [⟨1, [2], 0⟩]).2 ⟨1, [2], 0⟩ rfl⟩

/-- C8: on the sequential adapter `PrepareSnapshot` always panics and
`SaveSnapshot` with a non-empty context panics; the managed
`PrepareSnapshot` panics when the adapter is not concurrent-capable. -/
theorem sequential_snapshot_operations_fatal :
    (∀ α : Type, regularPrepareSnapshot (α := α) = none) ∧
    (∀ (γ : Type) (c : γ) (save : Except RsmError Nat),
      regularSaveSnapshot (some c) save = none) ∧
    (∀ (γ : Type) (prepare : Except RsmError γ),
      nativePrepareSnapshot regularConcurrentSnapshot prepare = none) :=
  ⟨fun _ => rfl, fun _ _ _ => rfl, fun _ _ => rfl⟩

/-- C2: evaluated at a failed header read with a successful close, the code
returns NO error: the deferred `err = reader.Close()` overwrites the header
error, so recovery aborts (the later stages did not run, the reader was
closed) yet the caller sees success, contradicting the claim that every
stage failure yields a non-nil error. -/
theorem recover_swallows_stage_error :
    nativeRecoverFromSnapshot ⟨none, some (RsmError.ioError 7), none, none, none⟩ =
      ⟨none, true, false, false⟩ := rfl
